import Mathlib

/-!
Shallow embedding of the disclosure controller of `src/app/js/Gallery.ts`
(natural-gallery-js): gallery state, `addItems`, `addElements`, `resize`,
`reset`, the scroll handler and pagination sizing, together with proofs of
the specification claims about them.

Modelling conventions:
* DOM display styles (`display: block` / `display: none`) are booleans
  (`...Visible` fields of the state).
* The PhotoSwipe container (`pswpContainer`) is modelled by the list of
  collection indices of the materialized items, in push order; the DOM
  append and the viewer entry are kept in lockstep with it in the source,
  so one list stands for both.
* A JS `null` argument is `Option.none`; JS arithmetic and comparisons
  involving `null` coerce it to `0` (`jsAddNull`, `jsLtNull`).
* The layout engine (`Organizer`, a collaborator that is not part of the
  sources under verification) is abstracted by a parameter `organizeRows`
  mapping collection length and container width to the list of per-item row
  indices; theorems hypothesise exactly the properties the specification
  guarantees of it (length preservation, monotone row indices starting at
  row 0).
* `Math.floor` over IEEE doubles is modelled by exact integer floor
  division (`0.7 = 7/10`); at the integer inputs involved, double rounding
  error is far below the distance to the nearest integer and cannot move
  the floor.
* A JS exception (`TypeError`) is `Except.error`; operations that cannot
  throw on the paths exercised by the claims also have total wrappers.
-/

namespace NaturalGallery

/-- One image of the collection. Only the `row` index assigned by the
layout engine is relevant to the disclosure controller's logic; intrinsic
sizes and metadata never influence the control flow in `Gallery.ts`. -/
structure Item where
  row : Nat
  deriving DecidableEq, Repr

instance : Inhabited Item := ⟨⟨0⟩⟩

/-- The configuration options read by the disclosure logic
(`rowHeight`, `limit`, `minRowsAtStart` of `IGalleryOptions`). -/
structure GalleryOptions where
  rowHeight : Nat
  limit : Nat
  minRowsAtStart : Nat
  deriving DecidableEq, Repr

/-- Environment measured from the DOM: viewport height
(`scrollElement.clientHeight` resp. `document.documentElement.clientHeight`),
the gallery body's vertical offset (`bodyElement.offsetTop`), and whether a
pagination event hook is registered (`events.pagination`). -/
structure Env where
  options : GalleryOptions
  winHeight : Int
  galleryOffsetTop : Int
  hasPaginationEvent : Bool
  deriving DecidableEq, Repr

/-- The mutable state of a `Gallery` instance that the disclosure logic
reads and writes. -/
structure GalleryState where
  collection : List Item
  pswpContainer : List Nat
  bodyWidth : Nat
  old_scroll_top : Int
  nextButtonVisible : Bool
  noResultsVisible : Bool
  imagesBlockVisible : Bool
  deriving DecidableEq, Repr

/-- State right after `render()`: empty collection, empty PhotoSwipe
container, the no-results indicator shown, the next button hidden. -/
def initState (w : Nat) : GalleryState :=
  { collection := [], pswpContainer := [], bodyWidth := w, old_scroll_top := 0,
    nextButtonVisible := false, noResultsVisible := true, imagesBlockVisible := false }

/-- Row index of the item at position `i` (out of range reads give row 0;
they never occur on in-range accesses, which is all the code performs). -/
def rowAt (l : List Item) (i : Nat) : Nat :=
  (l.getD i ⟨0⟩).row

/-- JS `a + b` where `b` may be `null`: `null` coerces to `0`. -/
def jsAddNull (a : Nat) (b : Option Nat) : Nat :=
  a + b.getD 0

/-- JS `a < b` where `b` may be `null`: `null` coerces to `0`, so the
comparison is false for every non-negative `a`. -/
def jsLtNull (a : Nat) (b : Option Nat) : Bool :=
  match b with
  | some v => decide (a < v)
  | none => false

/-- The one JS exception the modelled code can raise: the `TypeError` of a
property read on `undefined` or `null`. -/
inductive JsError where
  | typeError
  deriving DecidableEq, Repr

/-- One iteration of the reveal loop of `addElements`
(`Gallery.ts:290-303`): push the item into the PhotoSwipe container when
its row is below `lastRow`, then hide the next button when the container
has caught up with the collection. -/
def revealStep (collection : List Item) (lastRow : Option Nat) (s : GalleryState) (i : Nat) :
    GalleryState :=
  let s1 := if jsLtNull (rowAt collection i) lastRow
    then { s with pswpContainer := s.pswpContainer ++ [i] }
    else s
  if s1.pswpContainer.length = collection.length
    then { s1 with nextButtonVisible := false }
    else s1

/-- The reveal loop of `addElements`: iterate `revealStep` over the indices
from `start` to the end of the collection. -/
def revealLoop (collection : List Item) (lastRow : Option Nat) (s : GalleryState) (start : Nat) :
    GalleryState :=
  (List.range' start (collection.length - start)).foldl (revealStep collection lastRow) s

/-- `Gallery.addElements(rows)` (`Gallery.ts:268-321`), with the JS
`TypeError` thrown by `collection[nextImage].row` on an out-of-range read
modelled by `Except.error`. The trailing visible/total counters are pure
display text and are not modelled. -/
def addElementsE (s0 : GalleryState) (rows : Option Nat) : Except JsError GalleryState :=
  let collection := s0.collection
  let s := { s0 with nextButtonVisible := true }
  if s.pswpContainer.length = collection.length then
    let s1 := { s with nextButtonVisible := false }
    if collection.length = 0 then
      Except.ok { s1 with noResultsVisible := true, imagesBlockVisible := false }
    else
      Except.ok s1
  else
    let nextImage := s.pswpContainer.length
    if s.pswpContainer.length = 0 then
      let s2 := revealLoop collection rows s nextImage
      Except.ok { s2 with noResultsVisible := false, imagesBlockVisible := true }
    else
      match collection.get? nextImage with
      | none => Except.error JsError.typeError
      | some it =>
        let lastRow := some (jsAddNull it.row rows)
        let s2 := revealLoop collection lastRow s nextImage
        Except.ok { s2 with noResultsVisible := false, imagesBlockVisible := true }

/-- Total wrapper for `addElementsE`. The only throwing path is the
out-of-range frontier read, which is unreachable from reachable states
(the materialized set never outgrows the collection); a thrown `TypeError`
aborts the event handler, modelled as leaving the state unchanged. -/
def addElements (s : GalleryState) (rows : Option Nat) : GalleryState :=
  match addElementsE s rows with
  | Except.ok s' => s'
  | Except.error _ => s

/-- Reassign to each item, in order, the row index computed by the layout
engine; items beyond the computed list keep their row. -/
def assignRows : List Nat → List Item → List Item
  | _, [] => []
  | [], it :: its => it :: its
  | r :: rs, it :: its => { it with row := r } :: assignRows rs its

/-- Modelled from the spec: `Organizer.organize` (the layout engine, whose
source is not under `src/`) recomputes every item's row index (and display
size, which the disclosure logic never reads) from the full collection and
the current container width. It is abstracted by the `organizeRows`
parameter giving the row list for a collection length and width. -/
def organize (organizeRows : Nat → Nat → List Nat) (s : GalleryState) : GalleryState :=
  { s with collection :=
      assignRows (organizeRows s.collection.length s.bodyWidth) s.collection }

/-- `Gallery.getRowsPerPage()` (`Gallery.ts:331-344`): the configured fixed
page size if non-zero, otherwise the available vertical pixels divided by
`rowHeight * 0.7`, floored, and clamped below to `minRowsAtStart`. -/
def getRowsPerPage (env : Env) : Nat :=
  if env.options.limit ≠ 0 then env.options.limit
  else
    let galleryVisibleHeight : Int := env.winHeight - env.galleryOffsetTop
    let nbRows : Int := Int.fdiv (10 * galleryVisibleHeight) (7 * (env.options.rowHeight : Int))
    if nbRows < (env.options.minRowsAtStart : Int) then env.options.minRowsAtStart
    else nbRows.toNat

/-- The argument of `Gallery.addItems`, as a JS value: `null`/`undefined`
(reading `.constructor` of which throws), any other non-array value (the
guard rejects it), or an array of item field objects (modelled by the
items they construct). -/
inductive AddItemsInput where
  | nullish
  | nonArray
  | arr (items : List Item)
  deriving DecidableEq, Repr

/-- `Gallery.addItems(items)` (`Gallery.ts:230-254`): guard the input,
record whether everything was already shown, append the new items,
re-run the layout engine over the entire collection, and reveal a page of
rows when everything had been shown. The header refresh is filter UI and
is not modelled. -/
def addItemsE (organizeRows : Nat → Nat → List Nat) (env : Env) (s : GalleryState)
    (input : AddItemsInput) : Except JsError GalleryState :=
  match input with
  | AddItemsInput.nullish => Except.error JsError.typeError
  | AddItemsInput.nonArray => Except.ok s
  | AddItemsInput.arr items =>
    if items.length = 0 then Except.ok s
    else
      let display := s.collection.length = 0 ∨ s.collection.length = s.pswpContainer.length
      let s1 := { s with collection := s.collection ++ items }
      let s2 := organize organizeRows s1
      if display then addElementsE s2 (some (getRowsPerPage env)) else Except.ok s2

/-- `Gallery.reset()` (`Gallery.ts:374-382`): empty the PhotoSwipe
container, detach every item's rendering, show the no-results indicator.
The collection itself is kept. -/
def reset (s : GalleryState) : GalleryState :=
  { s with pswpContainer := [], noResultsVisible := true }

/-- `Gallery.resize()` (`Gallery.ts:351-363`) with the freshly measured
container width as argument: a no-op unless the width changed; otherwise
re-run layout at the new width, read the (new) row of the last
materialized item, reset, and reveal that many rows again. -/
def resizeE (organizeRows : Nat → Nat → List Nat) (env : Env) (s : GalleryState)
    (containerWidth : Nat) : Except JsError GalleryState :=
  if containerWidth = s.bodyWidth then Except.ok s
  else
    let s1 := { s with bodyWidth := containerWidth }
    let s2 := organize organizeRows s1
    let lastIdx : Int := (s2.pswpContainer.length : Int) - 1
    let lastImage : Option Item :=
      if lastIdx < 0 then none else s2.collection.get? lastIdx.toNat
    let nbRows : Nat :=
      match lastImage with
      | some it => it.row + 1
      | none => getRowsPerPage env
    addElementsE (reset s2) (some nbRows)

/-- Item count per row, built exactly like the `reduce` of
`Gallery.getMaxImagesPerRow` (`Gallery.ts:428-435`): a row-indexed array of
counters. JS leaves holes (`undefined`) at rows no item occupies and the
counter initialisation `stack[e.row] > -1 ? stack[e.row] + 1 : 1` treats a
hole like a zero; the recursion materialises those holes as `0`. -/
def bumpRow : List Nat → Nat → List Nat
  | [], 0 => [1]
  | [], r + 1 => 0 :: bumpRow [] r
  | c :: st, 0 => (c + 1) :: st
  | c :: st, r + 1 => c :: bumpRow st r

/-- The per-row counters of the collection. -/
def nbPerRow (collection : List Item) : List Nat :=
  collection.foldl (fun st it => bumpRow st it.row) []

/-- `Gallery.getMaxImagesPerRow()`: the maximum of the per-row counters
(`Math.max` over the reduce result). -/
def getMaxImagesPerRow (collection : List Item) : Nat :=
  (nbPerRow collection).foldl Nat.max 0

/-- Modelled from the spec: `Organizer.simulatePagination` (the layout
engine's estimation mode, whose source is not under `src/`) estimates how
many items of the default aspect ratio `defaultImageRatio = 0.7` fit in one
row at the current container width and target row height: each such item is
`rowHeight * 0.7` wide, so the estimate is `floor(width / (rowHeight * 0.7))`. -/
def simulatePagination (env : Env) (s : GalleryState) : Nat :=
  (10 * s.bodyWidth) / (7 * env.options.rowHeight)

/-- `Gallery.pagination(nbRows)` (`Gallery.ts:412-422`): the arguments
`(currentCount, requestedCount)` passed to the external pagination hook,
or `none` when no hook is registered. -/
def pagination (env : Env) (s : GalleryState) (nbRows : Nat) : Option (Nat × Nat) :=
  if env.hasPaginationEvent then
    if s.collection.length ≠ 0 then
      some (s.collection.length, getMaxImagesPerRow s.collection * nbRows)
    else
      some (s.collection.length, simulatePagination env s * getRowsPerPage env * 2)
  else none

/-- One scroll event, with the geometry the handler reads from the DOM at
event time (`Gallery.ts:394-409`). -/
structure ScrollEvent where
  scrollTop : Int
  clientTop : Int
  clientHeight : Int
  endOfGalleryAt : Int
  deriving DecidableEq, Repr

/-- The scroll handler installed by `Gallery.bindScroll`: record the new
scroll offset, and when the movement is downward and the viewport bottom
has reached the gallery bottom, reveal one more row and invoke the
pagination hook for one row. Returns the new state and the hook call. -/
def onScroll (env : Env) (s : GalleryState) (ev : ScrollEvent) :
    GalleryState × Option (Nat × Nat) :=
  let current_scroll_top := ev.scrollTop - ev.clientTop
  let scroll_delta := current_scroll_top - s.old_scroll_top
  let s1 := { s with old_scroll_top := current_scroll_top }
  if 0 < scroll_delta ∧ ev.endOfGalleryAt ≤ current_scroll_top + ev.clientHeight then
    let s2 := addElements s1 (some 1)
    (s2, pagination env s2 1)
  else (s1, none)

/-- The externally triggerable operations of the disclosure controller. -/
inductive GalleryOp where
  | addItemsOp (input : AddItemsInput)
  | addElementsOp (rows : Option Nat)
  | resizeOp (width : Nat)
  | resetOp
  deriving DecidableEq, Repr

/-- One controller step, with JS exceptions surfaced. -/
def stepE (organizeRows : Nat → Nat → List Nat) (env : Env) (s : GalleryState) :
    GalleryOp → Except JsError GalleryState
  | GalleryOp.addItemsOp input => addItemsE organizeRows env s input
  | GalleryOp.addElementsOp rows => addElementsE s rows
  | GalleryOp.resizeOp w => resizeE organizeRows env s w
  | GalleryOp.resetOp => Except.ok (reset s)

/-- Total step: a thrown `TypeError` aborts the event handler and control
returns to the host; the throwing paths (a nullish `addItems` argument, an
out-of-range frontier read from an unreachable state) mutate nothing of
consequence beforehand, so the aborted step is modelled as the identity. -/
def step (organizeRows : Nat → Nat → List Nat) (env : Env) (s : GalleryState)
    (op : GalleryOp) : GalleryState :=
  match stepE organizeRows env s op with
  | Except.ok s' => s'
  | Except.error _ => s

/-- Run a sequence of controller operations. -/
def run (organizeRows : Nat → Nat → List Nat) (env : Env) (ops : List GalleryOp)
    (s : GalleryState) : GalleryState :=
  ops.foldl (step organizeRows env) s

/-- Monotone row assignment along the collection (the invariant the layout
engine guarantees, spec section 3). -/
def rowsMonotone (l : List Item) : Prop :=
  ∀ j, j < l.length → ∀ i, i ≤ j → rowAt l i ≤ rowAt l j

/-- Row assignment without gaps: consecutive items never skip a row. -/
def rowsGapless (l : List Item) : Prop :=
  ∀ i, i < l.length - 1 → rowAt l (i + 1) ≤ rowAt l i + 1

/-- Monotone row list (same property, on the raw output of the engine). -/
def monotoneRows (rows : List Nat) : Prop :=
  ∀ j, j < rows.length → ∀ i, i ≤ j → rows.getD i 0 ≤ rows.getD j 0

instance (l : List Item) : Decidable (rowsMonotone l) := by
  unfold rowsMonotone; infer_instance

instance (l : List Item) : Decidable (rowsGapless l) := by
  unfold rowsGapless; infer_instance

instance (rows : List Nat) : Decidable (monotoneRows rows) := by
  unfold monotoneRows; infer_instance

/-- Count of the collection's items lying in row `r`. -/
def countRow (l : List Item) (r : Nat) : Nat :=
  l.countP (fun it => it.row == r)

/-- Number of distinct rows the materialized items occupy. -/
def materializedRowCount (s : GalleryState) : Nat :=
  ((s.pswpContainer.map (fun i => rowAt s.collection i)).dedup).length

lemma rowAt_mono {l : List Item} (hmono : rowsMonotone l) {i j : Nat}
    (hij : i ≤ j) (hj : j < l.length) : rowAt l i ≤ rowAt l j :=
  hmono j hj i hij

lemma jsLtNull_some (a v : Nat) : jsLtNull a (some v) = decide (a < v) := rfl

lemma jsLtNull_false_of_le {a b : Nat} {bound : Option Nat}
    (hab : a ≤ b) (h : jsLtNull a bound = false) : jsLtNull b bound = false := by
  cases bound with
  | none => rfl
  | some v =>
    simp only [jsLtNull, decide_eq_false_iff_not, not_lt] at h ⊢
    omega

/-- `revealStep` as a single record update: the container optionally grows
by the index, and the next button goes dark exactly when the container has
caught up with the collection. -/
lemma revealStep_eq (collection : List Item) (bound : Option Nat) (s : GalleryState) (i : Nat) :
    revealStep collection bound s i =
      { s with
        pswpContainer :=
          if jsLtNull (rowAt collection i) bound then s.pswpContainer ++ [i]
          else s.pswpContainer,
        nextButtonVisible :=
          if (if jsLtNull (rowAt collection i) bound then s.pswpContainer ++ [i]
              else s.pswpContainer).length = collection.length
          then false else s.nextButtonVisible } := by
  unfold revealStep
  by_cases h1 : jsLtNull (rowAt collection i) bound = true
  · by_cases h2 : (s.pswpContainer ++ [i]).length = collection.length
    · have h2' : s.pswpContainer.length + 1 = collection.length := by
        simpa [List.length_append] using h2
      simp [h1, h2, h2', List.length_append]
    · have h2' : ¬ s.pswpContainer.length + 1 = collection.length := by
        simpa [List.length_append] using h2
      simp [h1, h2, h2', List.length_append]
  · by_cases h2 : s.pswpContainer.length = collection.length
    · simp [h1, h2]
    · simp [h1, h2]

/-- Behaviour of the reveal loop of `addElements`, by induction on the
remaining iteration count. Starting from a state whose PhotoSwipe
container holds exactly the indices below `m` and whose next-button
visibility already reflects `m`, the loop ends with the container holding
exactly the indices below some `j`, where an index `i ≥ m` is below `j`
precisely when its row passes the `lastRow` comparison. -/
lemma revealFold_spec (collection : List Item) (bound : Option Nat)
    (hmono : rowsMonotone collection) :
    ∀ (cnt a m : Nat) (s : GalleryState),
      a + cnt = collection.length → m ≤ a →
      s.pswpContainer = List.range m →
      s.nextButtonVisible = decide (m ≠ collection.length) →
      (m < a → jsLtNull (rowAt collection m) bound = false) →
      ∃ j, m ≤ j ∧ j ≤ collection.length ∧
        (List.range' a cnt).foldl (revealStep collection bound) s =
          { s with pswpContainer := List.range j,
                   nextButtonVisible := decide (j ≠ collection.length) } ∧
        ∀ i, m ≤ i → i < collection.length →
          (i < j ↔ jsLtNull (rowAt collection i) bound = true) := by
  intro cnt
  induction cnt with
  | zero =>
    intro a m s hlen hma hpswp hnb hstall
    refine ⟨m, le_refl m, by omega, ?_, ?_⟩
    · rw [List.range'_zero, List.foldl_nil, ← hpswp, ← hnb]
    · intro i hmi hi
      have hia : ¬ i < m := by omega
      have hfalse : jsLtNull (rowAt collection i) bound = false := by
        have hmlt : m < a := by omega
        exact jsLtNull_false_of_le (rowAt_mono hmono hmi hi) (hstall hmlt)
      simp [hia, hfalse]
  | succ cnt ih =>
    intro a m s hlen hma hpswp hnb hstall
    have halen : a < collection.length := by omega
    rw [List.range'_succ, List.foldl_cons]
    by_cases hcase : jsLtNull (rowAt collection a) bound = true
    · have hm : m = a := by
        by_contra hne
        have hmlt : m < a := by omega
        have hfa := jsLtNull_false_of_le (rowAt_mono hmono (le_of_lt hmlt) halen) (hstall hmlt)
        rw [hcase] at hfa
        exact absurd hfa (by simp)
      subst hm
      have hstep : revealStep collection bound s m =
          { s with pswpContainer := List.range (m + 1),
                   nextButtonVisible := decide (m + 1 ≠ collection.length) } := by
        rw [revealStep_eq, if_pos hcase, hpswp, ← List.range_succ]
        by_cases hfull : m + 1 = collection.length
        · rw [if_pos (by rw [List.length_range]; exact hfull)]
          rw [show (decide (m + 1 ≠ collection.length)) = false from
            decide_eq_false (by omega)]
        · rw [if_neg (by rw [List.length_range]; exact hfull)]
          rw [hnb, show (decide (m ≠ collection.length)) = true from
            decide_eq_true (by omega),
            show (decide (m + 1 ≠ collection.length)) = true from decide_eq_true hfull]
      rw [hstep]
      obtain ⟨j, hj1, hj2, hj3, hj4⟩ :=
        ih (m + 1) (m + 1)
          { s with pswpContainer := List.range (m + 1),
                   nextButtonVisible := decide (m + 1 ≠ collection.length) }
          (by omega) (le_refl _) rfl rfl (fun h => absurd h (lt_irrefl _))
      refine ⟨j, by omega, hj2, ?_, ?_⟩
      · rw [hj3]
      · intro i hmi hi
        rcases Nat.eq_or_lt_of_le hmi with heq | hlt
        · subst heq
          simp only [hcase, iff_true]
          omega
        · exact hj4 i hlt hi
    · have hstep : revealStep collection bound s a = s := by
        rw [revealStep_eq, if_neg hcase,
          if_neg (show ¬ s.pswpContainer.length = collection.length by
            rw [hpswp, List.length_range]; omega)]
      rw [hstep]
      exact ih (a + 1) m s (by omega) (by omega) hpswp hnb
        (fun _ => by
          rcases Nat.eq_or_lt_of_le hma with heq | hlt
          · exact heq ▸ (Bool.not_eq_true _ ▸ Bool.of_not_eq_true hcase)
          · exact hstall hlt)

/-- `addElements` when the container has caught up with the collection:
the early return (`Gallery.ts:275-284`). -/
lemma addElementsE_of_full (s : GalleryState) (rows : Option Nat)
    (h : s.pswpContainer.length = s.collection.length) :
    addElementsE s rows =
      (if s.collection.length = 0 then
        Except.ok { s with nextButtonVisible := false, noResultsVisible := true,
                           imagesBlockVisible := false }
      else Except.ok { s with nextButtonVisible := false }) := by
  unfold addElementsE
  rw [if_pos h]

/-- `addElements` when nothing is materialized yet: `lastRow` is the raw
`rows` argument. -/
lemma addElementsE_of_none_materialized (s : GalleryState) (rows : Option Nat)
    (hne : ¬ s.pswpContainer.length = s.collection.length)
    (h0 : s.pswpContainer.length = 0) :
    addElementsE s rows =
      Except.ok { (revealLoop s.collection rows { s with nextButtonVisible := true }
                    s.pswpContainer.length) with
                  noResultsVisible := false, imagesBlockVisible := true } := by
  unfold addElementsE
  rw [if_neg hne, if_pos h0]

/-- `addElements` when something is materialized and the frontier read is
in range: `lastRow` is the frontier row plus the (null-coerced) argument. -/
lemma addElementsE_of_some_materialized (s : GalleryState) (rows : Option Nat) (it : Item)
    (hne : ¬ s.pswpContainer.length = s.collection.length)
    (h0 : ¬ s.pswpContainer.length = 0)
    (hget : s.collection.get? s.pswpContainer.length = some it) :
    addElementsE s rows =
      Except.ok { (revealLoop s.collection (some (jsAddNull it.row rows))
                    { s with nextButtonVisible := true } s.pswpContainer.length) with
                  noResultsVisible := false, imagesBlockVisible := true } := by
  unfold addElementsE
  rw [if_neg hne, if_neg h0, hget]

/-- `addElements` when something is materialized but the frontier read is
out of range: the JS `TypeError`. -/
lemma addElementsE_of_oob (s : GalleryState) (rows : Option Nat)
    (hne : ¬ s.pswpContainer.length = s.collection.length)
    (h0 : ¬ s.pswpContainer.length = 0)
    (hget : s.collection.get? s.pswpContainer.length = none) :
    addElementsE s rows = Except.error JsError.typeError := by
  unfold addElementsE
  rw [if_neg hne, if_neg h0, hget]

/-- Full characterisation of a numeric `addElements(n)` call from a state
whose materialized set is the contiguous block of the first `k` items,
`k` short of the collection, under a monotone row assignment starting at
row 0: the materialized set becomes the contiguous block of the first `j`
items where position `i` is included exactly when its row lies below
`rowAt k + n`, the next button reflects completeness, the no-results
indicator is hidden and the images container shown. -/
lemma addElementsE_spec (s : GalleryState) (n : Nat) (k : Nat)
    (hpswp : s.pswpContainer = List.range k)
    (hk : k < s.collection.length)
    (hmono : rowsMonotone s.collection)
    (hhead : rowAt s.collection 0 = 0) :
    ∃ j, k ≤ j ∧ j ≤ s.collection.length ∧
      addElementsE s (some n) = Except.ok
        { s with pswpContainer := List.range j,
                 nextButtonVisible := decide (j ≠ s.collection.length),
                 noResultsVisible := false,
                 imagesBlockVisible := true } ∧
      ∀ i, k ≤ i → i < s.collection.length →
        (i < j ↔ rowAt s.collection i < rowAt s.collection k + n) := by
  have hlenk : s.pswpContainer.length = k := by rw [hpswp, List.length_range]
  have hne : ¬ s.pswpContainer.length = s.collection.length := by omega
  obtain ⟨j, hj1, hj2, hj3, hj4⟩ :=
    revealFold_spec s.collection (some (rowAt s.collection k + n)) hmono
      (s.collection.length - k) k k { s with nextButtonVisible := true }
      (by omega) (le_refl _) hpswp
      (Eq.symm (decide_eq_true (show k ≠ s.collection.length by omega)))
      (fun h => absurd h (lt_irrefl _))
  have hloop : revealLoop s.collection (some (rowAt s.collection k + n))
      { s with nextButtonVisible := true } k =
      { s with pswpContainer := List.range j,
               nextButtonVisible := decide (j ≠ s.collection.length) } := by
    unfold revealLoop
    exact hj3
  have hchar : ∀ i, k ≤ i → i < s.collection.length →
      (i < j ↔ rowAt s.collection i < rowAt s.collection k + n) := by
    intro i h1 h2
    rw [hj4 i h1 h2, jsLtNull_some, decide_eq_true_eq]
  refine ⟨j, hj1, hj2, ?_, hchar⟩
  by_cases hk0 : k = 0
  · have hb : (some n : Option Nat) = some (rowAt s.collection k + n) := by
      rw [hk0, hhead, Nat.zero_add]
    rw [addElementsE_of_none_materialized s (some n) hne (by omega), hlenk, hk0, hb,
      show (0 : Nat) = k from hk0.symm, hloop]
  · obtain ⟨it, hget⟩ : ∃ it, s.collection.get? s.pswpContainer.length = some it := by
      rw [hlenk]
      exact ⟨_, List.get?_eq_get hk⟩
    have hrow : it.row = rowAt s.collection k := by
      rw [hlenk] at hget
      rw [rowAt, List.getD_eq_getElem?_getD, ← List.get?_eq_getElem?, hget]
      rfl
    rw [addElementsE_of_some_materialized s (some n) it hne (by omega) hget, hlenk]
    have hb : jsAddNull it.row (some n) = rowAt s.collection k + n := by
      rw [jsAddNull, hrow]
      rfl
    rw [hb, hloop]

/-- The total wrapper agrees with the exceptional semantics on non-throwing
calls. -/
lemma addElements_eq_ok {s : GalleryState} {rows : Option Nat} {s' : GalleryState}
    (h : addElementsE s rows = Except.ok s') : addElements s rows = s' := by
  unfold addElements
  rw [h]

/-- Each loop iteration grows the container by at most one entry and never
touches the collection. -/
lemma revealFold_bound (collection : List Item) (bound : Option Nat) :
    ∀ (L : List Nat) (s : GalleryState),
      (L.foldl (revealStep collection bound) s).pswpContainer.length ≤
        s.pswpContainer.length + L.length ∧
      (L.foldl (revealStep collection bound) s).collection = s.collection := by
  intro L
  induction L with
  | nil =>
    intro s
    simp
  | cons a L ih =>
    intro s
    rw [List.foldl_cons]
    obtain ⟨h1, h2⟩ := ih (revealStep collection bound s a)
    have hs1 : (revealStep collection bound s a).pswpContainer.length ≤
        s.pswpContainer.length + 1 := by
      rw [revealStep_eq]
      by_cases h : jsLtNull (rowAt collection a) bound = true
      · simp [h]
      · simp [h]
    have hs2 : (revealStep collection bound s a).collection = s.collection := by
      rw [revealStep_eq]
    refine ⟨?_, by rw [h2, hs2]⟩
    calc (L.foldl (revealStep collection bound) (revealStep collection bound s a)).pswpContainer.length
        ≤ (revealStep collection bound s a).pswpContainer.length + L.length := h1
      _ ≤ s.pswpContainer.length + 1 + L.length := by omega
      _ = s.pswpContainer.length + (a :: L).length := by simp [List.length_cons]; omega

/-- A concrete five-item collection laid out as rows `0,0,1,1,2`, with the
first full row (two items) materialized. -/
def itemsA : List Item := [⟨0⟩, ⟨0⟩, ⟨1⟩, ⟨1⟩, ⟨2⟩]

/-- A concrete mid-disclosure state over `itemsA`. -/
def stateA : GalleryState :=
  { collection := itemsA, pswpContainer := List.range 2, bodyWidth := 800,
    old_scroll_top := 0, nextButtonVisible := true, noResultsVisible := false,
    imagesBlockVisible := true }

/-- C1: for every collection with a monotone row assignment (starting at
row 0, as the layout engine produces) and every positive `rowCount`, a
reveal call `addElements(rowCount)` from a materialized contiguous block of
`k < length` items appends exactly the items whose row index lies below the
frontier row plus `rowCount`; the items appended therefore span exactly
`rowCount` distinct rows measured from the first unmaterialized item (made
precise by the gapless clause: when at least one item lies at or beyond
that bound, the new frontier item's row is exactly `frontier + rowCount`);
if fewer rows remain the reveal stops at the end of the collection; and the
"load more" control is hidden precisely when the materialized set has
become the full collection. -/
theorem c1_addElements_reveals_row_window (s : GalleryState) (n k : Nat)
    (hn : 0 < n)
    (hpswp : s.pswpContainer = List.range k)
    (hk : k < s.collection.length)
    (hmono : rowsMonotone s.collection)
    (hhead : rowAt s.collection 0 = 0) :
    ∃ j, k ≤ j ∧ j ≤ s.collection.length ∧
      addElements s (some n) =
        { s with pswpContainer := List.range j,
                 nextButtonVisible := decide (j ≠ s.collection.length),
                 noResultsVisible := false,
                 imagesBlockVisible := true } ∧
      (∀ i, i < s.collection.length →
        (i < j ↔ rowAt s.collection i < rowAt s.collection k + n)) ∧
      ((∀ i, i < s.collection.length → rowAt s.collection i < rowAt s.collection k + n) →
        j = s.collection.length) ∧
      (rowsGapless s.collection →
        (∃ i, i < s.collection.length ∧ rowAt s.collection k + n ≤ rowAt s.collection i) →
        j < s.collection.length ∧ rowAt s.collection j = rowAt s.collection k + n) := by
  obtain ⟨j, hj1, hj2, hok, hchar⟩ := addElementsE_spec s n k hpswp hk hmono hhead
  have hfull : ∀ i, i < s.collection.length →
      (i < j ↔ rowAt s.collection i < rowAt s.collection k + n) := by
    intro i hi
    by_cases hik : k ≤ i
    · exact hchar i hik hi
    · have h1 : i < k := by omega
      have h2 : rowAt s.collection i ≤ rowAt s.collection k := rowAt_mono hmono (by omega) hk
      constructor
      · intro _
        omega
      · intro _
        omega
  refine ⟨j, hj1, hj2, addElements_eq_ok hok, hfull, ?_, ?_⟩
  · intro hall
    by_contra hne
    have hjlen : j < s.collection.length := by omega
    have := (hfull j hjlen).mpr (hall j hjlen)
    omega
  · rintro hgap ⟨i, hi, hge⟩
    have hjle : ¬ i < j := by
      intro hlt
      have := (hfull i hi).mp hlt
      omega
    have hjlen : j < s.collection.length := by omega
    have hkj : k < j := (hfull k hk).mpr (by omega)
    obtain ⟨j', rfl⟩ : ∃ j', j = j' + 1 := ⟨j - 1, by omega⟩
    have hlow : rowAt s.collection j' < rowAt s.collection k + n :=
      (hfull j' (by omega)).mp (by omega)
    have hstepb : rowAt s.collection (j' + 1) ≤ rowAt s.collection j' + 1 :=
      hgap j' (by omega)
    have hhi : ¬ rowAt s.collection (j' + 1) < rowAt s.collection k + n := by
      intro hlt
      exact absurd ((hfull (j' + 1) hjlen).mpr hlt) (by omega)
    exact ⟨hjlen, by omega⟩

/-- Witness for C1 at a concrete state: revealing one row from `stateA`
(two of five items shown) appends exactly the second row. -/
theorem c1_witness :
    (0 < 1 ∧ stateA.pswpContainer = List.range 2 ∧ 2 < stateA.collection.length ∧
      rowsMonotone stateA.collection ∧ rowAt stateA.collection 0 = 0) ∧
    (∃ j, 2 ≤ j ∧ j ≤ stateA.collection.length ∧
      addElements stateA (some 1) =
        { stateA with pswpContainer := List.range j,
                      nextButtonVisible := decide (j ≠ stateA.collection.length),
                      noResultsVisible := false,
                      imagesBlockVisible := true } ∧
      (∀ i, i < stateA.collection.length →
        (i < j ↔ rowAt stateA.collection i < rowAt stateA.collection 2 + 1)) ∧
      ((∀ i, i < stateA.collection.length →
          rowAt stateA.collection i < rowAt stateA.collection 2 + 1) →
        j = stateA.collection.length) ∧
      (rowsGapless stateA.collection →
        (∃ i, i < stateA.collection.length ∧
          rowAt stateA.collection 2 + 1 ≤ rowAt stateA.collection i) →
        j < stateA.collection.length ∧
          rowAt stateA.collection j = rowAt stateA.collection 2 + 1)) :=
  ⟨⟨by decide, by decide, by decide, by decide, by decide⟩,
    c1_addElements_reveals_row_window stateA 1 2 (by decide) (by decide) (by decide)
      (by decide) (by decide)⟩

/-- C9: from any state whose materialized set has not outgrown the
collection (which holds in every reachable state), a reveal request —
however large, `null` included — never throws: it returns a state whose
materialized set is still clamped to the collection; and on an empty
collection the call merely hides the next button, surfaces the
empty-state indicator, hides the images container, and returns,
materializing nothing. -/
theorem c9_addElements_never_throws (s : GalleryState) (rows : Option Nat)
    (hle : s.pswpContainer.length ≤ s.collection.length) :
    (∃ s', addElementsE s rows = Except.ok s' ∧
      s'.pswpContainer.length ≤ s.collection.length) ∧
    (s.collection = [] → addElementsE s rows = Except.ok
      { s with nextButtonVisible := false, noResultsVisible := true,
               imagesBlockVisible := false }) := by
  constructor
  · by_cases hfull : s.pswpContainer.length = s.collection.length
    · rw [addElementsE_of_full s rows hfull]
      by_cases h0 : s.collection.length = 0
      · rw [if_pos h0]
        exact ⟨_, rfl, hle⟩
      · rw [if_neg h0]
        exact ⟨_, rfl, hle⟩
    · by_cases h0 : s.pswpContainer.length = 0
      · rw [addElementsE_of_none_materialized s rows hfull h0]
        refine ⟨_, rfl, ?_⟩
        have hb := revealFold_bound s.collection rows
          (List.range' s.pswpContainer.length
            (s.collection.length - s.pswpContainer.length))
          { s with nextButtonVisible := true }
        unfold revealLoop
        calc ((List.range' s.pswpContainer.length
                (s.collection.length - s.pswpContainer.length)).foldl
                (revealStep s.collection rows)
                { s with nextButtonVisible := true }).pswpContainer.length
            ≤ s.pswpContainer.length +
                (List.range' s.pswpContainer.length
                  (s.collection.length - s.pswpContainer.length)).length := hb.1
          _ ≤ s.collection.length := by
              rw [List.length_range']
              omega
      · obtain ⟨it, hget⟩ : ∃ it, s.collection.get? s.pswpContainer.length = some it :=
          ⟨_, List.get?_eq_get (by omega)⟩
        rw [addElementsE_of_some_materialized s rows it hfull h0 hget]
        refine ⟨_, rfl, ?_⟩
        have hb := revealFold_bound s.collection (some (jsAddNull it.row rows))
          (List.range' s.pswpContainer.length
            (s.collection.length - s.pswpContainer.length))
          { s with nextButtonVisible := true }
        unfold revealLoop
        calc ((List.range' s.pswpContainer.length
                (s.collection.length - s.pswpContainer.length)).foldl
                (revealStep s.collection (some (jsAddNull it.row rows)))
                { s with nextButtonVisible := true }).pswpContainer.length
            ≤ s.pswpContainer.length +
                (List.range' s.pswpContainer.length
                  (s.collection.length - s.pswpContainer.length)).length := hb.1
          _ ≤ s.collection.length := by
              rw [List.length_range']
              omega
  · intro hnil
    have h0 : s.collection.length = 0 := by rw [hnil]; rfl
    have hfull : s.pswpContainer.length = s.collection.length := by omega
    rw [addElementsE_of_full s rows hfull, if_pos h0]

/-- Witness for C9: a reveal of seven rows from `stateA` (only three rows
of data) stays within bounds, and the same theorem applied to the initial
state covers the empty-collection clause. -/
theorem c9_witness :
    ((initState 800).pswpContainer.length ≤ (initState 800).collection.length) ∧
    ((∃ s', addElementsE (initState 800) (some 7) = Except.ok s' ∧
        s'.pswpContainer.length ≤ (initState 800).collection.length) ∧
      ((initState 800).collection = [] → addElementsE (initState 800) (some 7) = Except.ok
        { initState 800 with nextButtonVisible := false, noResultsVisible := true,
                             imagesBlockVisible := false })) :=
  ⟨by decide, c9_addElements_never_throws (initState 800) (some 7) (by decide)⟩

/-- When every considered item fails the `lastRow` comparison and the
container is short of the collection, the reveal loop is the identity. -/
lemma revealFold_id (collection : List Item) (bound : Option Nat) :
    ∀ (L : List Nat) (s : GalleryState),
      (∀ i, i ∈ L → jsLtNull (rowAt collection i) bound = false) →
      ¬ s.pswpContainer.length = collection.length →
      L.foldl (revealStep collection bound) s = s := by
  intro L
  induction L with
  | nil =>
    intro s _ _
    rfl
  | cons a L ih =>
    intro s hall hne
    rw [List.foldl_cons]
    have hstep : revealStep collection bound s a = s := by
      rw [revealStep_eq, if_neg (by rw [hall a (List.mem_cons_self a L)]; simp),
        if_neg hne]
    rw [hstep]
    exact ih s (fun i hi => hall i (List.mem_cons_of_mem a hi)) hne

/-- C10 (amended): `addElements` with its default `null` argument never
materializes any item, for every monotone collection and every
materialization state not outgrowing it; the empty-state indicator is
hidden by the call exactly when the materialized set had not yet caught up
with the collection — when it had, the call returns early, showing the
indicator if the collection is empty and leaving it untouched otherwise. -/
theorem c10_addElements_null_noop (s : GalleryState)
    (hmono : rowsMonotone s.collection)
    (hle : s.pswpContainer.length ≤ s.collection.length) :
    (addElements s none).pswpContainer = s.pswpContainer ∧
    (s.pswpContainer.length ≠ s.collection.length →
      (addElements s none).noResultsVisible = false) ∧
    (s.pswpContainer.length = s.collection.length → s.collection = [] →
      (addElements s none).noResultsVisible = true) ∧
    (s.pswpContainer.length = s.collection.length → s.collection ≠ [] →
      (addElements s none).noResultsVisible = s.noResultsVisible) := by
  by_cases hfull : s.pswpContainer.length = s.collection.length
  · have hres := addElementsE_of_full s none hfull
    by_cases h0 : s.collection.length = 0
    · rw [if_pos h0] at hres
      rw [addElements_eq_ok hres]
      exact ⟨rfl, fun h => absurd hfull h, fun _ _ => rfl,
        fun _ hne => absurd (List.eq_nil_of_length_eq_zero h0) hne⟩
    · rw [if_neg h0] at hres
      rw [addElements_eq_ok hres]
      exact ⟨rfl, fun h => absurd hfull h,
        fun _ hnil => absurd (by rw [hnil]; rfl) h0, fun _ _ => rfl⟩
  · by_cases h0 : s.pswpContainer.length = 0
    · have hres := addElementsE_of_none_materialized s none hfull h0
      have hid : revealLoop s.collection none { s with nextButtonVisible := true }
          s.pswpContainer.length = { s with nextButtonVisible := true } := by
        unfold revealLoop
        exact revealFold_id s.collection none _ _ (fun i _ => rfl) hfull
      rw [hid] at hres
      rw [addElements_eq_ok hres]
      exact ⟨rfl, fun _ => rfl, fun h => absurd h hfull, fun h => absurd h hfull⟩
    · obtain ⟨it, hget⟩ : ∃ it, s.collection.get? s.pswpContainer.length = some it :=
        ⟨_, List.get?_eq_get (by omega)⟩
      have hres := addElementsE_of_some_materialized s none it hfull h0 hget
      have hrow : it.row = rowAt s.collection s.pswpContainer.length := by
        rw [rowAt, List.getD_eq_getElem?_getD, ← List.get?_eq_getElem?, hget]
        rfl
      have hid : revealLoop s.collection (some (jsAddNull it.row none))
          { s with nextButtonVisible := true } s.pswpContainer.length =
          { s with nextButtonVisible := true } := by
        unfold revealLoop
        refine revealFold_id s.collection (some (jsAddNull it.row none)) _ _ ?_ hfull
        intro i hi
        rw [List.mem_range'_1] at hi
        have hge : rowAt s.collection s.pswpContainer.length ≤ rowAt s.collection i :=
          rowAt_mono hmono hi.1 (by omega)
        have : jsAddNull it.row none = it.row := rfl
        rw [this, jsLtNull_some, hrow, decide_eq_false_iff_not, not_lt]
        exact hge
      rw [hid] at hres
      rw [addElements_eq_ok hres]
      exact ⟨rfl, fun _ => rfl, fun h => absurd h hfull, fun h => absurd h hfull⟩

/-- Counterexample for C10 as stated: on the freshly rendered empty
gallery, `addElements(null)` materializes nothing but the empty-state
indicator ends up shown (`block`), not hidden — the early return for a
fully-materialized (here empty) collection shows it instead. -/
theorem c10_empty_state_shown_cex :
    (addElements (initState 800) none).pswpContainer = [] ∧
    (addElements (initState 800) none).noResultsVisible = true := by
  decide

/-- Witness for C10's amended theorem at the concrete mid-disclosure state
`stateA`: nothing is materialized by `addElements(null)` and the
empty-state indicator is hidden. -/
theorem c10_witness :
    (rowsMonotone stateA.collection ∧
      stateA.pswpContainer.length ≤ stateA.collection.length) ∧
    ((addElements stateA none).pswpContainer = stateA.pswpContainer ∧
      (stateA.pswpContainer.length ≠ stateA.collection.length →
        (addElements stateA none).noResultsVisible = false) ∧
      (stateA.pswpContainer.length = stateA.collection.length → stateA.collection = [] →
        (addElements stateA none).noResultsVisible = true) ∧
      (stateA.pswpContainer.length = stateA.collection.length → stateA.collection ≠ [] →
        (addElements stateA none).noResultsVisible = stateA.noResultsVisible)) :=
  ⟨⟨by decide, by decide⟩, c10_addElements_null_noop stateA (by decide) (by decide)⟩

/-- The environment of spec Scenario B: viewport height 800, gallery top
offset 100, row height 350, `minRowsAtStart` 2, no fixed page size. -/
def envB : Env :=
  { options := { rowHeight := 350, limit := 0, minRowsAtStart := 2 },
    winHeight := 800, galleryOffsetTop := 100, hasPaginationEvent := false }

/-- An environment with a fixed page size of 5 and a pagination hook. -/
def envLim : Env :=
  { options := { rowHeight := 350, limit := 5, minRowsAtStart := 2 },
    winHeight := 800, galleryOffsetTop := 100, hasPaginationEvent := true }

/-- C5: `getRowsPerPage` returns the configured fixed page size when it is
non-zero; otherwise the floor of the available vertical pixels over
`rowHeight * 0.7` clamped below to `minRowsAtStart`; in Scenario B
(viewport 800, offset 100, row height 350, minimum 2) it returns 2. -/
theorem c5_getRowsPerPage_formula :
    (∀ env : Env, env.options.limit ≠ 0 → getRowsPerPage env = env.options.limit) ∧
    (∀ env : Env, env.options.limit = 0 →
      (getRowsPerPage env : Int) =
        max (env.options.minRowsAtStart : Int)
          (Int.fdiv (10 * (env.winHeight - env.galleryOffsetTop))
            (7 * (env.options.rowHeight : Int)))) ∧
    getRowsPerPage envB = 2 := by
  refine ⟨?_, ?_, by decide⟩
  · intro env h
    unfold getRowsPerPage
    rw [if_pos h]
  · intro env h
    unfold getRowsPerPage
    rw [if_neg (by omega)]
    by_cases hc : Int.fdiv (10 * (env.winHeight - env.galleryOffsetTop))
        (7 * (env.options.rowHeight : Int)) < (env.options.minRowsAtStart : Int)
    · rw [if_pos hc, max_eq_left (le_of_lt hc)]
    · rw [if_neg hc, max_eq_right (not_lt.mp hc),
        Int.toNat_of_nonneg (le_trans (Int.natCast_nonneg _) (not_lt.mp hc))]

/-- Witness for C5: the fixed-limit branch at `envLim` and the computed
branch at the Scenario B environment. -/
theorem c5_witness :
    (envLim.options.limit ≠ 0 ∧ getRowsPerPage envLim = envLim.options.limit) ∧
    (envB.options.limit = 0 ∧
      (getRowsPerPage envB : Int) =
        max (envB.options.minRowsAtStart : Int)
          (Int.fdiv (10 * (envB.winHeight - envB.galleryOffsetTop))
            (7 * (envB.options.rowHeight : Int)))) :=
  ⟨⟨by decide, c5_getRowsPerPage_formula.1 envLim (by decide)⟩,
    ⟨by decide, c5_getRowsPerPage_formula.2.1 envB (by decide)⟩⟩

lemma bumpRow_getD : ∀ (r' : Nat) (st : List Nat) (r : Nat),
    (bumpRow st r').getD r 0 = st.getD r 0 + (if r = r' then 1 else 0) := by
  intro r'
  induction r' with
  | zero =>
    intro st r
    cases st with
    | nil =>
      cases r with
      | zero => rfl
      | succ r => simp [bumpRow]
    | cons c st =>
      cases r with
      | zero => rfl
      | succ r => simp [bumpRow]
  | succ r' ih =>
    intro st r
    cases st with
    | nil =>
      cases r with
      | zero => simp [bumpRow]
      | succ r =>
        show (bumpRow [] r').getD r 0 = ([] : List Nat).getD (r + 1) 0 +
          (if r + 1 = r' + 1 then 1 else 0)
        rw [ih [] r]
        simp
    | cons c st =>
      cases r with
      | zero => simp [bumpRow]
      | succ r =>
        show (bumpRow st r').getD r 0 = (c :: st).getD (r + 1) 0 +
          (if r + 1 = r' + 1 then 1 else 0)
        rw [ih st r]
        simp

lemma foldl_bumpRow_getD : ∀ (l : List Item) (st : List Nat) (r : Nat),
    (l.foldl (fun st it => bumpRow st it.row) st).getD r 0 = st.getD r 0 + countRow l r := by
  intro l
  induction l with
  | nil =>
    intro st r
    simp [countRow]
  | cons it l ih =>
    intro st r
    rw [List.foldl_cons, ih, bumpRow_getD]
    rw [countRow, countRow, List.countP_cons]
    by_cases h : r = it.row
    · simp [h]
      omega
    · have h' : ¬ (it.row == r) = true := by
        simp [beq_iff_eq]
        omega
      simp [h, h']

/-- The per-row counter at index `r` counts the items in row `r`. -/
lemma nbPerRow_getD (l : List Item) (r : Nat) :
    (nbPerRow l).getD r 0 = countRow l r := by
  rw [nbPerRow, foldl_bumpRow_getD]
  simp

lemma le_foldl_max : ∀ (L : List Nat) (a : Nat),
    a ≤ L.foldl Nat.max a ∧ ∀ x, x ∈ L → x ≤ L.foldl Nat.max a := by
  intro L
  induction L with
  | nil =>
    intro a
    exact ⟨le_refl a, fun x hx => absurd hx (List.not_mem_nil x)⟩
  | cons c L ih =>
    intro a
    rw [List.foldl_cons]
    obtain ⟨h1, h2⟩ := ih (Nat.max a c)
    refine ⟨le_trans (Nat.le_max_left a c) h1, ?_⟩
    intro x hx
    rcases List.mem_cons.mp hx with rfl | hx
    · exact le_trans (Nat.le_max_right a x) h1
    · exact h2 x hx

lemma foldl_max_mem : ∀ (L : List Nat) (a : Nat),
    L.foldl Nat.max a = a ∨ L.foldl Nat.max a ∈ L := by
  intro L
  induction L with
  | nil =>
    intro a
    exact Or.inl rfl
  | cons c L ih =>
    intro a
    rw [List.foldl_cons]
    rcases ih (Nat.max a c) with h | h
    · rcases max_choice a c with hm | hm
      · exact Or.inl (h.trans hm)
      · exact Or.inr (List.mem_cons.mpr (Or.inl (h.trans hm)))
    · exact Or.inr (List.mem_cons.mpr (Or.inr h))

/-- `getMaxImagesPerRow` is the maximum, over all row indices, of the
number of items in that row. -/
lemma getMaxImagesPerRow_spec (l : List Item) :
    (∀ r, countRow l r ≤ getMaxImagesPerRow l) ∧
    (∃ r, countRow l r = getMaxImagesPerRow l) := by
  constructor
  · intro r
    rw [← nbPerRow_getD]
    by_cases h : r < (nbPerRow l).length
    · have hmem : (nbPerRow l).getD r 0 ∈ nbPerRow l := by
        rw [List.getD_eq_getElem?_getD, List.getElem?_eq_getElem h]
        exact List.getElem_mem h
      exact (le_foldl_max (nbPerRow l) 0).2 _ hmem
    · have hzero : (nbPerRow l).getD r 0 = 0 := by
        rw [List.getD_eq_getElem?_getD, List.getElem?_eq_none (le_of_not_lt h)]
        rfl
      rw [hzero]
      exact Nat.zero_le _
  · rcases foldl_max_mem (nbPerRow l) 0 with h | h
    · refine ⟨(nbPerRow l).length, ?_⟩
      rw [← nbPerRow_getD]
      rw [List.getD_eq_getElem?_getD, List.getElem?_eq_none (le_refl _)]
      exact h.symm
    · obtain ⟨i, hget⟩ := List.mem_iff_get.mp h
      refine ⟨(i : Nat), ?_⟩
      rw [← nbPerRow_getD, List.getD_eq_getElem?_getD,
        List.getElem?_eq_getElem i.isLt]
      simpa using hget

/-- C7: the pagination hook, when invoked for `nbRows` rows, requests
`maxItemsPerRow * nbRows` items where `maxItemsPerRow` is the maximum
number of items in any single row of the current layout, provided the
collection is non-empty; for an empty collection it requests
`estimatedItemsPerRow * getRowsPerPage() * 2` using the layout engine's
estimation with the default aspect ratio. -/
theorem c7_pagination_request_size (env : Env) (s : GalleryState) (nbRows : Nat)
    (hhook : env.hasPaginationEvent = true) :
    (s.collection.length ≠ 0 →
      ∃ m, pagination env s nbRows = some (s.collection.length, m * nbRows) ∧
        (∀ r, countRow s.collection r ≤ m) ∧
        (∃ r, countRow s.collection r = m)) ∧
    (s.collection.length = 0 →
      pagination env s nbRows =
        some (0, simulatePagination env s * getRowsPerPage env * 2)) := by
  constructor
  · intro hne
    refine ⟨getMaxImagesPerRow s.collection, ?_,
      (getMaxImagesPerRow_spec s.collection).1, (getMaxImagesPerRow_spec s.collection).2⟩
    unfold pagination
    rw [if_pos hhook, if_pos hne]
  · intro h0
    unfold pagination
    rw [if_pos hhook, if_neg (by omega), h0]

/-- Witness for C7 at `envLim` (hook registered) and `stateA` (non-empty,
two items in the widest row). -/
theorem c7_witness :
    (envLim.hasPaginationEvent = true) ∧
    ((stateA.collection.length ≠ 0 →
      ∃ m, pagination envLim stateA 3 = some (stateA.collection.length, m * 3) ∧
        (∀ r, countRow stateA.collection r ≤ m) ∧
        (∃ r, countRow stateA.collection r = m)) ∧
    (stateA.collection.length = 0 →
      pagination envLim stateA 3 =
        some (0, simulatePagination envLim stateA * getRowsPerPage envLim * 2))) :=
  ⟨by decide, c7_pagination_request_size envLim stateA 3 (by decide)⟩

/-- With a registered hook, `pagination` always produces a call. -/
lemma pagination_isSome (env : Env) (s : GalleryState) (n : Nat)
    (hhook : env.hasPaginationEvent = true) : (pagination env s n).isSome = true := by
  unfold pagination
  rw [if_pos hhook]
  by_cases h : s.collection.length ≠ 0
  · rw [if_pos h]
    rfl
  · rw [if_neg h]
    rfl

/-- C6: the scroll handler records the new offset on every event; it
reveals one more row and produces exactly one pagination call precisely
when the scroll delta since the last recorded offset is strictly positive
and the viewport bottom has reached the gallery bottom; an upward scroll
or a non-crossing downward scroll changes nothing but the recorded offset;
and when it fires, the materialized contiguous block grows to cover
exactly the rows below the frontier row plus one. -/
theorem c6_scroll_fire_iff (env : Env) (s : GalleryState) (ev : ScrollEvent) (k : Nat)
    (hhook : env.hasPaginationEvent = true)
    (hpswp : s.pswpContainer = List.range k)
    (hk : k < s.collection.length)
    (hmono : rowsMonotone s.collection)
    (hhead : rowAt s.collection 0 = 0) :
    (onScroll env s ev).1.old_scroll_top = ev.scrollTop - ev.clientTop ∧
    ((onScroll env s ev).2.isSome = true ↔
      (0 < ev.scrollTop - ev.clientTop - s.old_scroll_top ∧
        ev.endOfGalleryAt ≤ ev.scrollTop - ev.clientTop + ev.clientHeight)) ∧
    (¬ (0 < ev.scrollTop - ev.clientTop - s.old_scroll_top ∧
        ev.endOfGalleryAt ≤ ev.scrollTop - ev.clientTop + ev.clientHeight) →
      (onScroll env s ev).1 = { s with old_scroll_top := ev.scrollTop - ev.clientTop }) ∧
    ((0 < ev.scrollTop - ev.clientTop - s.old_scroll_top ∧
        ev.endOfGalleryAt ≤ ev.scrollTop - ev.clientTop + ev.clientHeight) →
      ∃ j, k < j ∧ j ≤ s.collection.length ∧
        (onScroll env s ev).1.pswpContainer = List.range j ∧
        ∀ i, i < s.collection.length →
          (i < j ↔ rowAt s.collection i < rowAt s.collection k + 1)) := by
  by_cases hf : (0 < ev.scrollTop - ev.clientTop - s.old_scroll_top ∧
      ev.endOfGalleryAt ≤ ev.scrollTop - ev.clientTop + ev.clientHeight)
  · obtain ⟨j, hj1, hj2, hok, hchar⟩ :=
      addElementsE_spec { s with old_scroll_top := ev.scrollTop - ev.clientTop }
        1 k hpswp hk hmono hhead
    have hrun : onScroll env s ev =
        (addElements { s with old_scroll_top := ev.scrollTop - ev.clientTop } (some 1),
          pagination env
            (addElements { s with old_scroll_top := ev.scrollTop - ev.clientTop } (some 1))
            1) := by
      unfold onScroll
      rw [if_pos hf]
    have hs2 := addElements_eq_ok hok
    refine ⟨?_, ?_, fun h => absurd hf h, ?_⟩
    · rw [hrun]
      dsimp only
      rw [hs2]
    · rw [hrun]
      dsimp only
      rw [pagination_isSome env _ 1 hhook]
      simp [hf]
    · intro _
      refine ⟨j, ?_, hj2, ?_, ?_⟩
      · exact (hchar k (le_refl k) hk).mpr (by omega)
      · rw [hrun]
        dsimp only
        rw [hs2]
      · intro i hi
        by_cases hik : k ≤ i
        · exact hchar i hik hi
        · have h1 : i < k := by omega
          have h2 : rowAt s.collection i ≤ rowAt s.collection k :=
            rowAt_mono hmono (by omega) hk
          have hkj : k < j := (hchar k (le_refl k) hk).mpr (by omega)
          constructor
          · intro _
            omega
          · intro _
            omega
  · have hrun : onScroll env s ev =
        ({ s with old_scroll_top := ev.scrollTop - ev.clientTop }, none) := by
      unfold onScroll
      rw [if_neg hf]
    rw [hrun]
    exact ⟨rfl, iff_of_false (by simp) hf, fun _ => rfl, fun h => absurd h hf⟩

/-- A concrete downward scroll event crossing the gallery bottom. -/
def scrollEvA : ScrollEvent :=
  { scrollTop := 100, clientTop := 0, clientHeight := 600, endOfGalleryAt := 500 }

/-- Witness for C6 at `stateA` under `envLim` with a crossing downward
scroll. -/
theorem c6_witness :
    (envLim.hasPaginationEvent = true ∧ stateA.pswpContainer = List.range 2 ∧
      2 < stateA.collection.length ∧ rowsMonotone stateA.collection ∧
      rowAt stateA.collection 0 = 0) ∧
    ((onScroll envLim stateA scrollEvA).1.old_scroll_top =
        scrollEvA.scrollTop - scrollEvA.clientTop ∧
      ((onScroll envLim stateA scrollEvA).2.isSome = true ↔
        (0 < scrollEvA.scrollTop - scrollEvA.clientTop - stateA.old_scroll_top ∧
          scrollEvA.endOfGalleryAt ≤
            scrollEvA.scrollTop - scrollEvA.clientTop + scrollEvA.clientHeight)) ∧
      (¬ (0 < scrollEvA.scrollTop - scrollEvA.clientTop - stateA.old_scroll_top ∧
          scrollEvA.endOfGalleryAt ≤
            scrollEvA.scrollTop - scrollEvA.clientTop + scrollEvA.clientHeight) →
        (onScroll envLim stateA scrollEvA).1 =
          { stateA with old_scroll_top := scrollEvA.scrollTop - scrollEvA.clientTop }) ∧
      ((0 < scrollEvA.scrollTop - scrollEvA.clientTop - stateA.old_scroll_top ∧
          scrollEvA.endOfGalleryAt ≤
            scrollEvA.scrollTop - scrollEvA.clientTop + scrollEvA.clientHeight) →
        ∃ j, 2 < j ∧ j ≤ stateA.collection.length ∧
          (onScroll envLim stateA scrollEvA).1.pswpContainer = List.range j ∧
          ∀ i, i < stateA.collection.length →
            (i < j ↔ rowAt stateA.collection i < rowAt stateA.collection 2 + 1))) :=
  ⟨⟨by decide, by decide, by decide, by decide, by decide⟩,
    c6_scroll_fire_iff envLim stateA scrollEvA 2 (by decide) (by decide) (by decide)
      (by decide) (by decide)⟩

lemma rowAt_cons_zero (x : Item) (l : List Item) : rowAt (x :: l) 0 = x.row := by
  simp [rowAt]

lemma rowAt_cons_succ (x : Item) (l : List Item) (i : Nat) :
    rowAt (x :: l) (i + 1) = rowAt l i := by
  simp [rowAt]

lemma assignRows_length : ∀ (rows : List Nat) (items : List Item),
    (assignRows rows items).length = items.length := by
  intro rows items
  induction items generalizing rows with
  | nil => cases rows <;> rfl
  | cons it items ih =>
    cases rows with
    | nil => rfl
    | cons r rows => simp [assignRows, ih]

lemma assignRows_rowAt : ∀ (items : List Item) (rows : List Nat) (i : Nat),
    i < items.length → i < rows.length →
    rowAt (assignRows rows items) i = rows.getD i 0 := by
  intro items
  induction items with
  | nil =>
    intro rows i hi _
    exact absurd hi (by simp)
  | cons it items ih =>
    intro rows i hi hr
    cases rows with
    | nil => exact absurd hr (by simp)
    | cons r rows =>
      cases i with
      | zero =>
        rw [show assignRows (r :: rows) (it :: items) =
          { it with row := r } :: assignRows rows items from rfl, rowAt_cons_zero]
        rfl
      | succ i =>
        rw [show assignRows (r :: rows) (it :: items) =
          { it with row := r } :: assignRows rows items from rfl, rowAt_cons_succ]
        rw [ih rows i (by simpa using hi) (by simpa using hr)]
        simp

/-- The layout oracle used for concrete witnesses: every item in row 0. -/
def organizeRep : Nat → Nat → List Nat := fun n _ => List.replicate n 0

lemma replicate_zero_getD : ∀ (n i : Nat), (List.replicate n (0 : Nat)).getD i 0 = 0 := by
  intro n
  induction n with
  | zero =>
    intro i
    rfl
  | succ n ih =>
    intro i
    cases i with
    | zero => simp [List.replicate_succ]
    | succ i => simp [List.replicate_succ, ih i]

lemma organizeRep_length : ∀ (n w : Nat), (organizeRep n w).length = n := by
  intro n w
  simp [organizeRep]

lemma organizeRep_monotone : ∀ (n w : Nat), monotoneRows (organizeRep n w) := by
  intro n w j _ i _
  rw [organizeRep, replicate_zero_getD, replicate_zero_getD]

lemma organizeRep_head : ∀ (n w : Nat), n ≠ 0 → (organizeRep n w).getD 0 0 = 0 := by
  intro n w _
  rw [organizeRep, replicate_zero_getD]

lemma organize_length (organizeRows : Nat → Nat → List Nat) (s : GalleryState) :
    (organize organizeRows s).collection.length = s.collection.length :=
  assignRows_length _ _

lemma organize_rowAt (organizeRows : Nat → Nat → List Nat) (s : GalleryState)
    (hlen : ∀ n w, (organizeRows n w).length = n) (i : Nat)
    (hi : i < s.collection.length) :
    rowAt (organize organizeRows s).collection i =
      (organizeRows s.collection.length s.bodyWidth).getD i 0 :=
  assignRows_rowAt s.collection _ i hi (by rw [hlen]; exact hi)

lemma organize_monotone (organizeRows : Nat → Nat → List Nat) (s : GalleryState)
    (hlen : ∀ n w, (organizeRows n w).length = n)
    (hmonoAll : ∀ n w, monotoneRows (organizeRows n w)) :
    rowsMonotone (organize organizeRows s).collection := by
  intro j hj i hij
  rw [organize_length] at hj
  rw [organize_rowAt organizeRows s hlen j hj,
    organize_rowAt organizeRows s hlen i (by omega)]
  exact hmonoAll s.collection.length s.bodyWidth j
    (by rw [hlen]; exact hj) i hij

lemma organize_head (organizeRows : Nat → Nat → List Nat) (s : GalleryState)
    (hlen : ∀ n w, (organizeRows n w).length = n)
    (hheadAll : ∀ n w, n ≠ 0 → (organizeRows n w).getD 0 0 = 0)
    (h0 : s.collection.length ≠ 0) :
    rowAt (organize organizeRows s).collection 0 = 0 := by
  rw [organize_rowAt organizeRows s hlen 0 (by omega)]
  exact hheadAll s.collection.length s.bodyWidth h0

/-- The guarded body of `addItems` for a non-empty array argument. -/
lemma addItemsE_arr (organizeRows : Nat → Nat → List Nat) (env : Env) (s : GalleryState)
    (items : List Item) (hne : ¬ items.length = 0) :
    addItemsE organizeRows env s (AddItemsInput.arr items) =
      (if s.collection.length = 0 ∨ s.collection.length = s.pswpContainer.length
       then addElementsE (organize organizeRows { s with collection := s.collection ++ items })
              (some (getRowsPerPage env))
       else Except.ok (organize organizeRows { s with collection := s.collection ++ items })) := by
  show (if items.length = 0 then Except.ok s
    else
      if s.collection.length = 0 ∨ s.collection.length = s.pswpContainer.length
      then addElementsE (organize organizeRows { s with collection := s.collection ++ items })
             (some (getRowsPerPage env))
      else Except.ok (organize organizeRows { s with collection := s.collection ++ items })) = _
  rw [if_neg hne]

/-- C4: `addItems` with a non-empty valid batch appends the new items to
the collection, re-runs layout over the entire collection, and grows the
materialized set immediately (by one page worth of rows) if and only if,
before the call, the materialized set covered the whole collection or the
collection was empty. -/
theorem c4_addItems_auto_reveal_iff (organizeRows : Nat → Nat → List Nat) (env : Env)
    (s : GalleryState) (items : List Item) (k : Nat)
    (hlen : ∀ n w, (organizeRows n w).length = n)
    (hmonoAll : ∀ n w, monotoneRows (organizeRows n w))
    (hheadAll : ∀ n w, n ≠ 0 → (organizeRows n w).getD 0 0 = 0)
    (hne : items ≠ [])
    (hpage : 0 < getRowsPerPage env)
    (hpswp : s.pswpContainer = List.range k)
    (hk : k ≤ s.collection.length) :
    ∃ s', addItemsE organizeRows env s (AddItemsInput.arr items) = Except.ok s' ∧
      s'.collection.length = s.collection.length + items.length ∧
      (∀ i, i < s'.collection.length →
        rowAt s'.collection i =
          (organizeRows (s.collection.length + items.length) s.bodyWidth).getD i 0) ∧
      (s.pswpContainer.length < s'.pswpContainer.length ↔
        (s.collection.length = 0 ∨ s.collection.length = s.pswpContainer.length)) := by
  have hne' : ¬ items.length = 0 := by
    intro h
    exact hne (List.eq_nil_of_length_eq_zero h)
  have hklen : s.pswpContainer.length = k := by rw [hpswp, List.length_range]
  have happ : ({ s with collection := s.collection ++ items } : GalleryState).collection.length
      = s.collection.length + items.length := List.length_append _ _
  have hlen2 : (organize organizeRows
      { s with collection := s.collection ++ items }).collection.length
      = s.collection.length + items.length := by
    rw [organize_length, happ]
  have hrowAt2 : ∀ i, i < s.collection.length + items.length →
      rowAt (organize organizeRows
        { s with collection := s.collection ++ items }).collection i =
      (organizeRows (s.collection.length + items.length) s.bodyWidth).getD i 0 := by
    intro i hi
    rw [organize_rowAt organizeRows _ hlen i (by rw [happ]; exact hi)]
    rw [happ]
  rw [addItemsE_arr organizeRows env s items hne']
  by_cases hdisp : s.collection.length = 0 ∨ s.collection.length = s.pswpContainer.length
  · rw [if_pos hdisp]
    have hknew : k < s.collection.length + items.length := by
      have : 0 < items.length := by omega
      rcases hdisp with h | h
      · omega
      · omega
    obtain ⟨j, hj1, hj2, hok, hchar⟩ :=
      addElementsE_spec (organize organizeRows { s with collection := s.collection ++ items })
        (getRowsPerPage env) k hpswp (by rw [hlen2]; exact hknew)
        (organize_monotone organizeRows _ hlen hmonoAll)
        (organize_head organizeRows _ hlen hheadAll (by omega))
    rw [hok]
    refine ⟨_, rfl, ?_, ?_, ?_⟩
    · show (organize organizeRows
        { s with collection := s.collection ++ items }).collection.length = _
      exact hlen2
    · intro i hi
      exact hrowAt2 i (by rw [← hlen2]; exact hi)
    · rw [hlen2] at hj2
      have hkj : k < j := by
        refine (hchar k (le_refl k) (by rw [hlen2]; exact hknew)).mpr ?_
        omega
      constructor
      · intro _
        exact hdisp
      · intro _
        show s.pswpContainer.length < (List.range j).length
        rw [hklen, List.length_range]
        exact hkj
  · rw [if_neg hdisp]
    refine ⟨_, rfl, hlen2, fun i hi => hrowAt2 i (by rw [← hlen2]; exact hi), ?_⟩
    constructor
    · intro hlt
      have hsame : (organize organizeRows
          { s with collection := s.collection ++ items }).pswpContainer
          = s.pswpContainer := rfl
      rw [hsame] at hlt
      exact absurd hlt (lt_irrefl _)
    · intro h
      exact absurd h hdisp

/-- A fully materialized two-item state (rows `0,0`). -/
def stateFull : GalleryState :=
  { collection := [⟨0⟩, ⟨0⟩], pswpContainer := List.range 2, bodyWidth := 800,
    old_scroll_top := 0, nextButtonVisible := false, noResultsVisible := false,
    imagesBlockVisible := true }

/-- Witness for C4: adding one item to the fully materialized `stateFull`
under the row-0 layout oracle auto-reveals. -/
theorem c4_witness :
    ([(⟨0⟩ : Item)] ≠ ([] : List Item) ∧ 0 < getRowsPerPage envLim ∧
      stateFull.pswpContainer = List.range 2 ∧ 2 ≤ stateFull.collection.length) ∧
    (∃ s', addItemsE organizeRep envLim stateFull (AddItemsInput.arr [⟨0⟩]) =
        Except.ok s' ∧
      s'.collection.length = stateFull.collection.length + [(⟨0⟩ : Item)].length ∧
      (∀ i, i < s'.collection.length →
        rowAt s'.collection i =
          (organizeRep (stateFull.collection.length + [(⟨0⟩ : Item)].length)
            stateFull.bodyWidth).getD i 0) ∧
      (stateFull.pswpContainer.length < s'.pswpContainer.length ↔
        (stateFull.collection.length = 0 ∨
          stateFull.collection.length = stateFull.pswpContainer.length))) :=
  ⟨⟨by decide, by decide, by decide, by decide⟩,
    c4_addItems_auto_reveal_iff organizeRep envLim stateFull [⟨0⟩] 2
      organizeRep_length organizeRep_monotone organizeRep_head
      (by decide) (by decide) (by decide) (by decide)⟩

/-- Revealing `v` rows right after a reset of the re-laid-out state: the
materialized set becomes exactly the items in rows `0..v-1` of the new
layout. -/
lemma addElementsE_from_reset (organizeRows : Nat → Nat → List Nat) (s : GalleryState)
    (w : Nat) (v : Nat)
    (hlen : ∀ n w', (organizeRows n w').length = n)
    (hmonoAll : ∀ n w', monotoneRows (organizeRows n w'))
    (hheadAll : ∀ n w', n ≠ 0 → (organizeRows n w').getD 0 0 = 0)
    (hne0 : s.collection.length ≠ 0) :
    ∃ j, j ≤ s.collection.length ∧
      addElementsE (reset (organize organizeRows { s with bodyWidth := w })) (some v) =
        Except.ok { organize organizeRows { s with bodyWidth := w } with
          pswpContainer := List.range j,
          nextButtonVisible := decide (j ≠ s.collection.length),
          noResultsVisible := false,
          imagesBlockVisible := true } ∧
      ∀ i, i < s.collection.length →
        (i < j ↔ rowAt (organize organizeRows { s with bodyWidth := w }).collection i < v) := by
  have hlen2 : (organize organizeRows { s with bodyWidth := w }).collection.length
      = s.collection.length := organize_length organizeRows { s with bodyWidth := w }
  obtain ⟨j, hj0, hj1, hok, hchar⟩ :=
    addElementsE_spec (reset (organize organizeRows { s with bodyWidth := w })) v 0
      (by rw [List.range_zero]; rfl)
      (show 0 < (organize organizeRows { s with bodyWidth := w }).collection.length by omega)
      (organize_monotone organizeRows { s with bodyWidth := w } hlen hmonoAll)
      (organize_head organizeRows { s with bodyWidth := w } hlen hheadAll hne0)
  have hhead2 : rowAt (organize organizeRows { s with bodyWidth := w }).collection 0 = 0 :=
    organize_head organizeRows { s with bodyWidth := w } hlen hheadAll hne0
  have hreset : (reset (organize organizeRows { s with bodyWidth := w })).collection.length
      = s.collection.length := hlen2
  refine ⟨j, by omega, ?_, ?_⟩
  · rw [hok]
    have e : decide
        (j ≠ (reset (organize organizeRows { s with bodyWidth := w })).collection.length) =
        decide (j ≠ s.collection.length) := by
      rw [hreset]
    rw [e]
    rfl
  · intro i hi
    have h := hchar i (Nat.zero_le i)
      (show i < (organize organizeRows { s with bodyWidth := w }).collection.length by omega)
    rw [h]
    show rowAt (organize organizeRows { s with bodyWidth := w }).collection i <
        rowAt (organize organizeRows { s with bodyWidth := w }).collection 0 + v ↔ _
    rw [hhead2, Nat.zero_add]

/-- C3 (amended): `resize` is a no-op when the measured width equals the
recorded width. When it differs, the layout is re-run at the new width, the
materialized set is cleared, and exactly `nbRows` rows of the NEW layout
are re-revealed, where `nbRows` is the new-layout row of the last
previously materialized item plus one (or a fresh page size when nothing
was materialized): afterwards the materialized set is exactly the items of
new-layout rows `0..nbRows-1`. Because the row index is read after the
re-layout, the number of rows visible can change across a resize. -/
theorem c3_resize_characterization (organizeRows : Nat → Nat → List Nat) (env : Env)
    (s : GalleryState) (w : Nat) (k : Nat)
    (hlen : ∀ n w', (organizeRows n w').length = n)
    (hmonoAll : ∀ n w', monotoneRows (organizeRows n w'))
    (hheadAll : ∀ n w', n ≠ 0 → (organizeRows n w').getD 0 0 = 0)
    (hpswp : s.pswpContainer = List.range k)
    (hk : k ≤ s.collection.length) :
    (w = s.bodyWidth → resizeE organizeRows env s w = Except.ok s) ∧
    (w ≠ s.bodyWidth →
      ∃ j nbRows,
        (k = 0 → nbRows = getRowsPerPage env) ∧
        (0 < k → nbRows =
          rowAt (organize organizeRows { s with bodyWidth := w }).collection (k - 1) + 1) ∧
        j ≤ s.collection.length ∧
        resizeE organizeRows env s w = Except.ok
          { organize organizeRows { s with bodyWidth := w } with
            pswpContainer := List.range j,
            nextButtonVisible := decide (j ≠ s.collection.length),
            noResultsVisible := decide (s.collection.length = 0),
            imagesBlockVisible := decide (¬ s.collection.length = 0) } ∧
        ∀ i, i < s.collection.length →
          (i < j ↔ rowAt (organize organizeRows
            { s with bodyWidth := w }).collection i < nbRows)) := by
  constructor
  · intro h
    unfold resizeE
    rw [if_pos h]
  · intro h
    have hshape : resizeE organizeRows env s w =
        addElementsE (reset (organize organizeRows { s with bodyWidth := w }))
          (some (match (if ((s.pswpContainer.length : Int) - 1 < 0) then (none : Option Item)
                        else (organize organizeRows { s with bodyWidth := w }).collection.get?
                              ((s.pswpContainer.length : Int) - 1).toNat) with
                 | some it => it.row + 1
                 | none => getRowsPerPage env)) := by
      unfold resizeE
      rw [if_neg h]
      rfl
    have hklen : s.pswpContainer.length = k := by rw [hpswp, List.length_range]
    by_cases hk0 : k = 0
    · have hc : ((s.pswpContainer.length : Int) - 1 < 0) := by
        rw [hklen, hk0]
        decide
      rw [if_pos hc] at hshape
      have hm : (match (none : Option Item) with
          | some it => it.row + 1
          | none => getRowsPerPage env) = getRowsPerPage env := rfl
      rw [hm] at hshape
      by_cases hlen0 : s.collection.length = 0
      · have horg : (reset (organize organizeRows
            { s with bodyWidth := w })).collection.length = s.collection.length :=
          organize_length organizeRows { s with bodyWidth := w }
        have hfull : (reset (organize organizeRows
            { s with bodyWidth := w })).pswpContainer.length =
            (reset (organize organizeRows { s with bodyWidth := w })).collection.length := by
          rw [horg, hlen0]
          rfl
        rw [addElementsE_of_full _ _ hfull,
          if_pos (show (reset (organize organizeRows
            { s with bodyWidth := w })).collection.length = 0 from by
              rw [horg]
              exact hlen0)] at hshape
        refine ⟨0, getRowsPerPage env, fun _ => rfl,
          fun hpos => absurd hk0 (by omega), Nat.zero_le _, ?_, ?_⟩
        · rw [hshape]
          have e1 : decide ((0 : Nat) ≠ s.collection.length) = false := by
            rw [hlen0]
            rfl
          have e2 : decide (s.collection.length = 0) = true := decide_eq_true hlen0
          have e3 : decide (¬ s.collection.length = 0) = false :=
            decide_eq_false (by omega)
          rw [e1, e2, e3]
          rfl
        · intro i hi
          exact absurd hi (by omega)
      · obtain ⟨j, hj1, hok, hchar⟩ :=
          addElementsE_from_reset organizeRows s w (getRowsPerPage env)
            hlen hmonoAll hheadAll hlen0
        rw [hok] at hshape
        refine ⟨j, getRowsPerPage env, fun _ => rfl,
          fun hpos => absurd hk0 (by omega), hj1, ?_, hchar⟩
        rw [hshape]
        have e1 : decide (s.collection.length = 0) = false := decide_eq_false hlen0
        have e2 : decide (¬ s.collection.length = 0) = true := decide_eq_true hlen0
        rw [e1, e2]
    · have hlen0 : s.collection.length ≠ 0 := by omega
      have hc : ¬ ((s.pswpContainer.length : Int) - 1 < 0) := by
        rw [hklen]
        omega
      rw [if_neg hc] at hshape
      have htoNat : ((s.pswpContainer.length : Int) - 1).toNat = k - 1 := by
        rw [hklen]
        omega
      rw [htoNat] at hshape
      have hk1 : k - 1 < (organize organizeRows
          { s with bodyWidth := w }).collection.length := by
        rw [organize_length]
        show k - 1 < s.collection.length
        omega
      obtain ⟨it, hget⟩ : ∃ it, (organize organizeRows
          { s with bodyWidth := w }).collection.get? (k - 1) = some it :=
        ⟨_, List.get?_eq_get hk1⟩
      rw [hget] at hshape
      have hm : (match some it with
          | some it => it.row + 1
          | none => getRowsPerPage env) = it.row + 1 := rfl
      rw [hm] at hshape
      have hrow : it.row = rowAt (organize organizeRows
          { s with bodyWidth := w }).collection (k - 1) := by
        rw [rowAt, List.getD_eq_getElem?_getD, ← List.get?_eq_getElem?, hget]
        rfl
      obtain ⟨j, hj1, hok, hchar⟩ :=
        addElementsE_from_reset organizeRows s w (it.row + 1) hlen hmonoAll hheadAll hlen0
      rw [hok] at hshape
      refine ⟨j, it.row + 1, fun h0 => absurd h0 hk0, fun _ => by rw [hrow], hj1, ?_, hchar⟩
      rw [hshape]
      have e1 : decide (s.collection.length = 0) = false := decide_eq_false hlen0
      have e2 : decide (¬ s.collection.length = 0) = true := decide_eq_true hlen0
      rw [e1, e2]

/-- A layout oracle packing two items per row at width 400 and four items
per row at any other width — the same eight-item collection spans four
rows at width 400 but only two rows at width 800. -/
def orgCex : Nat → Nat → List Nat := fun _ w =>
  if w = 400 then [0, 0, 1, 1, 2, 2, 3, 3] else [0, 0, 0, 0, 1, 1, 1, 1]

/-- Eight items laid out two per row at width 400. -/
def itemsCex : List Item := [⟨0⟩, ⟨0⟩, ⟨1⟩, ⟨1⟩, ⟨2⟩, ⟨2⟩, ⟨3⟩, ⟨3⟩]

/-- Width 400, first two rows (four items) materialized. -/
def stateCex : GalleryState :=
  { collection := itemsCex, pswpContainer := List.range 4, bodyWidth := 400,
    old_scroll_top := 0, nextButtonVisible := true, noResultsVisible := false,
    imagesBlockVisible := true }

/-- The state `resize` produces from `stateCex` at the new width 800. -/
def stateCexAfter : GalleryState :=
  { collection := [⟨0⟩, ⟨0⟩, ⟨0⟩, ⟨0⟩, ⟨1⟩, ⟨1⟩, ⟨1⟩, ⟨1⟩],
    pswpContainer := [0, 1, 2, 3], bodyWidth := 800, old_scroll_top := 0,
    nextButtonVisible := true, noResultsVisible := false, imagesBlockVisible := true }

/-- Counterexample for C3 as stated: `stateCex` has `r = 2` rows
materialized and at least 2 rows of data both before and after the
re-layout (materializing everything at the new width spans 2 rows), yet
`resize` to width 800 leaves only 1 row materialized — the row count of
the last materialized item is read only after the re-layout, so the
number of visible rows is not preserved. -/
theorem c3_resize_row_change_cex :
    materializedRowCount stateCex = 2 ∧
    materializedRowCount { stateCex with pswpContainer := List.range 8 } = 4 ∧
    materializedRowCount { stateCexAfter with pswpContainer := List.range 8 } = 2 ∧
    resizeE orgCex envB stateCex 800 = Except.ok stateCexAfter ∧
    materializedRowCount stateCexAfter = 1 ∧
    (1 : Nat) ≠ 2 :=
  ⟨by decide, by decide, by decide, rfl, by decide, by decide⟩

/-- Witness for C3's amended characterisation: resizing the fully
materialized `stateFull` from width 800 to 500 under the row-0 oracle. -/
theorem c3_witness :
    (stateFull.pswpContainer = List.range 2 ∧ 2 ≤ stateFull.collection.length) ∧
    ((500 = stateFull.bodyWidth →
        resizeE organizeRep envLim stateFull 500 = Except.ok stateFull) ∧
      (500 ≠ stateFull.bodyWidth →
        ∃ j nbRows,
          (2 = 0 → nbRows = getRowsPerPage envLim) ∧
          (0 < 2 → nbRows =
            rowAt (organize organizeRep
              { stateFull with bodyWidth := 500 }).collection (2 - 1) + 1) ∧
          j ≤ stateFull.collection.length ∧
          resizeE organizeRep envLim stateFull 500 = Except.ok
            { organize organizeRep { stateFull with bodyWidth := 500 } with
              pswpContainer := List.range j,
              nextButtonVisible := decide (j ≠ stateFull.collection.length),
              noResultsVisible := decide (stateFull.collection.length = 0),
              imagesBlockVisible := decide (¬ stateFull.collection.length = 0) } ∧
          ∀ i, i < stateFull.collection.length →
            (i < j ↔ rowAt (organize organizeRep
              { stateFull with bodyWidth := 500 }).collection i < nbRows))) :=
  ⟨⟨by decide, by decide⟩,
    c3_resize_characterization organizeRep envLim stateFull 500 2
      organizeRep_length organizeRep_monotone organizeRep_head (by decide) (by decide)⟩

/-- Any `addElements` call from a contiguous materialized block of a
monotone collection succeeds and yields a contiguous materialized block,
leaving the collection untouched. -/
lemma addElementsE_range (s : GalleryState) (rows : Option Nat) (k : Nat)
    (hpswp : s.pswpContainer = List.range k)
    (hk : k ≤ s.collection.length)
    (hmono : rowsMonotone s.collection) :
    ∃ s' j, addElementsE s rows = Except.ok s' ∧ s'.pswpContainer = List.range j ∧
      j ≤ s.collection.length ∧ s'.collection = s.collection := by
  by_cases hfull : s.pswpContainer.length = s.collection.length
  · rw [addElementsE_of_full s rows hfull]
    by_cases h0 : s.collection.length = 0
    · rw [if_pos h0]
      exact ⟨_, k, rfl, hpswp, hk, rfl⟩
    · rw [if_neg h0]
      exact ⟨_, k, rfl, hpswp, hk, rfl⟩
  · have hklen : s.pswpContainer.length = k := by rw [hpswp, List.length_range]
    have hklt : k < s.collection.length := by omega
    have key : ∀ bound : Option Nat,
        ∃ j, j ≤ s.collection.length ∧
          revealLoop s.collection bound { s with nextButtonVisible := true }
            s.pswpContainer.length =
          { s with pswpContainer := List.range j,
                   nextButtonVisible := decide (j ≠ s.collection.length) } := by
      intro bound
      obtain ⟨j, hj1, hj2, hj3, _⟩ := revealFold_spec s.collection bound hmono
        (s.collection.length - s.pswpContainer.length) s.pswpContainer.length k
        { s with nextButtonVisible := true }
        (by omega) (by omega) hpswp
        (Eq.symm (decide_eq_true (show k ≠ s.collection.length by omega)))
        (fun hlt => absurd hlt (by omega))
      exact ⟨j, hj2, hj3⟩
    by_cases hk0 : s.pswpContainer.length = 0
    · rw [addElementsE_of_none_materialized s rows hfull hk0]
      obtain ⟨j, hj1, hloop⟩ := key rows
      refine ⟨_, j, rfl, ?_, hj1, ?_⟩
      · rw [hloop]
      · rw [hloop]
    · obtain ⟨it, hget⟩ : ∃ it, s.collection.get? s.pswpContainer.length = some it :=
        ⟨_, List.get?_eq_get (by omega)⟩
      rw [addElementsE_of_some_materialized s rows it hfull hk0 hget]
      obtain ⟨j, hj1, hloop⟩ := key (some (jsAddNull it.row rows))
      refine ⟨_, j, rfl, ?_, hj1, ?_⟩
      · rw [hloop]
      · rw [hloop]

/-- A total step never throws away the contiguity of the materialized set
nor the monotonicity of the row assignment. -/
lemma step_preserves_inv (organizeRows : Nat → Nat → List Nat) (env : Env)
    (hlen : ∀ n w, (organizeRows n w).length = n)
    (hmonoAll : ∀ n w, monotoneRows (organizeRows n w))
    (s : GalleryState) (op : GalleryOp)
    (hmono : rowsMonotone s.collection)
    (hinv : ∃ k, s.pswpContainer = List.range k ∧ k ≤ s.collection.length) :
    rowsMonotone (step organizeRows env s op).collection ∧
    ∃ k, (step organizeRows env s op).pswpContainer = List.range k ∧
      k ≤ (step organizeRows env s op).collection.length := by
  obtain ⟨k, hpswp, hk⟩ := hinv
  have hstep_ok : ∀ s' : GalleryState, stepE organizeRows env s op = Except.ok s' →
      step organizeRows env s op = s' := by
    intro s' h
    unfold step
    rw [h]
  cases op with
  | addItemsOp input =>
    cases input with
    | nullish =>
      have : step organizeRows env s (GalleryOp.addItemsOp AddItemsInput.nullish) = s := by
        unfold step
        rfl
      rw [this]
      exact ⟨hmono, k, hpswp, hk⟩
    | nonArray =>
      have : step organizeRows env s (GalleryOp.addItemsOp AddItemsInput.nonArray) = s :=
        hstep_ok s rfl
      rw [this]
      exact ⟨hmono, k, hpswp, hk⟩
    | arr items =>
      by_cases hne : items.length = 0
      · have hnil : items = [] := List.eq_nil_of_length_eq_zero hne
        subst hnil
        have : step organizeRows env s (GalleryOp.addItemsOp (AddItemsInput.arr [])) = s :=
          hstep_ok s rfl
        rw [this]
        exact ⟨hmono, k, hpswp, hk⟩
      · have hshape := addItemsE_arr organizeRows env s items hne
        have hmono2 : rowsMonotone (organize organizeRows
            { s with collection := s.collection ++ items }).collection :=
          organize_monotone organizeRows _ hlen hmonoAll
        have hlen2 : (organize organizeRows
            { s with collection := s.collection ++ items }).collection.length
            = s.collection.length + items.length := by
          rw [organize_length]
          exact List.length_append _ _
        by_cases hdisp : s.collection.length = 0 ∨
            s.collection.length = s.pswpContainer.length
        · rw [if_pos hdisp] at hshape
          obtain ⟨s', j, hok, hr1, hr2, hr3⟩ :=
            addElementsE_range (organize organizeRows
              { s with collection := s.collection ++ items })
              (some (getRowsPerPage env)) k hpswp (by omega) hmono2
          have := hstep_ok s' (by
            show addItemsE organizeRows env s (AddItemsInput.arr items) = Except.ok s'
            rw [hshape, hok])
          rw [this]
          refine ⟨by rw [hr3]; exact hmono2, j, hr1, ?_⟩
          rw [hr3]
          omega
        · rw [if_neg hdisp] at hshape
          have := hstep_ok (organize organizeRows
            { s with collection := s.collection ++ items }) (by
            show addItemsE organizeRows env s (AddItemsInput.arr items) = Except.ok _
            rw [hshape])
          rw [this]
          exact ⟨hmono2, k, hpswp, by omega⟩
  | addElementsOp rows =>
    obtain ⟨s', j, hok, hr1, hr2, hr3⟩ := addElementsE_range s rows k hpswp hk hmono
    have := hstep_ok s' hok
    rw [this]
    refine ⟨by rw [hr3]; exact hmono, j, hr1, by rw [hr3]; exact hr2⟩
  | resizeOp w =>
    by_cases hw : w = s.bodyWidth
    · have : step organizeRows env s (GalleryOp.resizeOp w) = s := by
        apply hstep_ok
        show resizeE organizeRows env s w = Except.ok s
        unfold resizeE
        rw [if_pos hw]
      rw [this]
      exact ⟨hmono, k, hpswp, hk⟩
    · have hshape : resizeE organizeRows env s w =
          addElementsE (reset (organize organizeRows { s with bodyWidth := w }))
            (some (match (if ((s.pswpContainer.length : Int) - 1 < 0) then (none : Option Item)
                          else (organize organizeRows { s with bodyWidth := w }).collection.get?
                                ((s.pswpContainer.length : Int) - 1).toNat) with
                   | some it => it.row + 1
                   | none => getRowsPerPage env)) := by
        unfold resizeE
        rw [if_neg hw]
        rfl
      have hmono2 : rowsMonotone (organize organizeRows
          { s with bodyWidth := w }).collection :=
        organize_monotone organizeRows _ hlen hmonoAll
      obtain ⟨s', j, hok, hr1, hr2, hr3⟩ :=
        addElementsE_range (reset (organize organizeRows { s with bodyWidth := w }))
          (some _) 0 (by rw [List.range_zero]; rfl) (Nat.zero_le _) hmono2
      have := hstep_ok s' (by
        show resizeE organizeRows env s w = Except.ok s'
        rw [hshape, hok])
      rw [this]
      refine ⟨by rw [hr3]; exact hmono2, j, hr1, ?_⟩
      rw [hr3]
      exact hr2
  | resetOp =>
    have : step organizeRows env s GalleryOp.resetOp = reset s := hstep_ok (reset s) rfl
    rw [this]
    exact ⟨hmono, 0, by rw [List.range_zero]; rfl, Nat.zero_le _⟩

/-- C2: after any sequence of `addItems` / `addElements` / `resize` /
`reset` operations from a state whose materialized set is a contiguous
block and whose rows are monotone (hypotheses true of the freshly rendered
gallery), assuming the layout engine preserves the collection length and
assigns monotonically non-decreasing row indices, the materialized set is
exactly the contiguous block `Collection[0..k)` for some `k` — never a
non-contiguous subset, and never beyond the collection. -/
theorem c2_materialized_contiguous (organizeRows : Nat → Nat → List Nat) (env : Env)
    (ops : List GalleryOp) (s : GalleryState)
    (hlen : ∀ n w, (organizeRows n w).length = n)
    (hmonoAll : ∀ n w, monotoneRows (organizeRows n w))
    (hmono : rowsMonotone s.collection)
    (hinv : ∃ k, s.pswpContainer = List.range k ∧ k ≤ s.collection.length) :
    ∃ k, (run organizeRows env ops s).pswpContainer = List.range k ∧
      k ≤ (run organizeRows env ops s).collection.length := by
  induction ops generalizing s with
  | nil => exact hinv
  | cons op ops ih =>
    obtain ⟨hmono', hinv'⟩ :=
      step_preserves_inv organizeRows env hlen hmonoAll s op hmono hinv
    exact ih (step organizeRows env s op) hmono' hinv'

/-- Witness for C2: a concrete operation sequence from the initial state
under the row-0 oracle. -/
theorem c2_witness :
    (rowsMonotone (initState 800).collection ∧
      ∃ k, (initState 800).pswpContainer = List.range k ∧
        k ≤ (initState 800).collection.length) ∧
    (∃ k, (run organizeRep envLim
        [GalleryOp.addItemsOp (AddItemsInput.arr [⟨0⟩, ⟨0⟩, ⟨0⟩]),
         GalleryOp.addElementsOp (some 1),
         GalleryOp.resizeOp 500,
         GalleryOp.addItemsOp AddItemsInput.nonArray,
         GalleryOp.resetOp,
         GalleryOp.addElementsOp (some 2)] (initState 800)).pswpContainer = List.range k ∧
      k ≤ (run organizeRep envLim
        [GalleryOp.addItemsOp (AddItemsInput.arr [⟨0⟩, ⟨0⟩, ⟨0⟩]),
         GalleryOp.addElementsOp (some 1),
         GalleryOp.resizeOp 500,
         GalleryOp.addItemsOp AddItemsInput.nonArray,
         GalleryOp.resetOp,
         GalleryOp.addElementsOp (some 2)] (initState 800)).collection.length) :=
  ⟨⟨by decide, ⟨0, rfl, Nat.le_refl 0⟩⟩,
    c2_materialized_contiguous organizeRep envLim
      [GalleryOp.addItemsOp (AddItemsInput.arr [⟨0⟩, ⟨0⟩, ⟨0⟩]),
       GalleryOp.addElementsOp (some 1),
       GalleryOp.resizeOp 500,
       GalleryOp.addItemsOp AddItemsInput.nonArray,
       GalleryOp.resetOp,
       GalleryOp.addElementsOp (some 2)] (initState 800)
      organizeRep_length organizeRep_monotone (by decide) ⟨0, rfl, Nat.le_refl 0⟩⟩

/-- C8 (amended): `addItems` silently ignores, with no state change, an
empty array and any non-array value other than `null`/`undefined`; a
`null`/`undefined` argument instead throws a `TypeError` from the guard's
own property read — before any mutation, so the state is still unchanged,
but the call does not return normally. -/
theorem c8_addItems_guard (organizeRows : Nat → Nat → List Nat) (env : Env)
    (s : GalleryState) :
    addItemsE organizeRows env s AddItemsInput.nonArray = Except.ok s ∧
    addItemsE organizeRows env s (AddItemsInput.arr []) = Except.ok s ∧
    addItemsE organizeRows env s AddItemsInput.nullish = Except.error JsError.typeError :=
  ⟨rfl, rfl, rfl⟩

/-- Counterexample for C8 as stated: `addItems(null)` — a non-array input —
does not return with the state unchanged; it throws a `TypeError` (JS
evaluates `items.constructor` on `null`). -/
theorem c8_nullish_throws_cex :
    addItemsE organizeRep envLim (initState 800) AddItemsInput.nullish =
      Except.error JsError.typeError ∧
    addItemsE organizeRep envLim (initState 800) AddItemsInput.nullish ≠
      Except.ok (initState 800) :=
  ⟨rfl, by intro h; exact Except.noConfusion h⟩

end NaturalGallery
